import Mathlib

/-!
Verification of the numerical core of the `rust_math` repository
(`src/derivatives.rs` and `src/integrals.rs`).

The Rust code works on `f64` and `u64`.  The embedding idealises `f64`
as the exact rationals `ℚ` (the claims under study are algebraic and
structural, not rounding statements) and `u64` as `ℕ`.  Mutating
methods `fn m(&mut self) -> f64` become functions `m : S → ℚ × S`
returning the Rust return value together with the updated struct.
Floating-point literals are read exactly: `1e-6` becomes `1/1000000`,
`1e6 as u64` becomes `1000000`.

For the one claim that is specifically about the IEEE NaN behaviour of
the constructor guard `increment > 0.0`, a small extension `F64` of `ℚ`
with a NaN element is defined, together with the comparison used by the
guard (every comparison with NaN is false in IEEE 754), and the guard is
modelled once more on that type.
-/

namespace RustMath

/-- Embedding of `Derivative` from `src/derivatives.rs`:
a stored function, an evaluation point, a step, and the stored result
(the private `result` field, `0.0` at construction). -/
structure Derivative where
  function : ℚ → ℚ
  x_coordinate : ℚ
  increment : ℚ
  result : ℚ


/-- Embedding of `Derivative::new`: a non-positive `increment` is
silently replaced by the default `1e-6`; `result` starts at `0.0`. -/
def Derivative.new (function : ℚ → ℚ) (x_coordinate : ℚ) (increment : ℚ) :
    Derivative :=
  let increment := if increment > 0 then increment else 1/1000000
  { function := function
    x_coordinate := x_coordinate
    increment := increment
    result := 0 }

/-- Embedding of `Derivative::get_result`. -/
def Derivative.get_result (d : Derivative) : ℚ :=
  d.result

/-- Embedding of `Derivative::forward_difference`:
`result = (f(x + h) - f(x)) / h`, stored and returned. -/
def Derivative.forward_difference (d : Derivative) : ℚ × Derivative :=
  let r := (d.function (d.x_coordinate + d.increment)
      - d.function d.x_coordinate) / d.increment
  (r, { d with result := r })

/-- Embedding of `Derivative::backward_difference`:
`result = (f(x) - f(x - h)) / h`, stored and returned. -/
def Derivative.backward_difference (d : Derivative) : ℚ × Derivative :=
  let r := (d.function d.x_coordinate
      - d.function (d.x_coordinate - d.increment)) / d.increment
  (r, { d with result := r })

/-- Embedding of `Derivative::central_difference`:
`half_increment = h / 2`, `result = (f(x + half) - f(x - half)) / h`,
stored and returned. -/
def Derivative.central_difference (d : Derivative) : ℚ × Derivative :=
  let half_increment := d.increment / 2
  let r := (d.function (d.x_coordinate + half_increment)
      - d.function (d.x_coordinate - half_increment)) / d.increment
  (r, { d with result := r })

/-- Embedding of `Integral` from `src/integrals.rs`. -/
structure Integral where
  function : ℚ → ℚ
  lower_bound : ℚ
  upper_bound : ℚ
  num_intervals : ℕ
  result : ℚ


/-- Embedding of `Integral::new`: `num_intervals = 0` is silently
replaced by the default `1e6 as u64 = 1000000`; `result` starts at
`0.0`. -/
def Integral.new (function : ℚ → ℚ) (lower_bound upper_bound : ℚ)
    (num_intervals : ℕ) : Integral :=
  let num_intervals := if num_intervals > 0 then num_intervals else 1000000
  { function := function
    lower_bound := lower_bound
    upper_bound := upper_bound
    num_intervals := num_intervals
    result := 0 }

/-- Embedding of `Integral::riemann_integration`: with
`width = (upper - lower) / n`, the loop `for i in 0..n` adds
`f(lower + i * width) * width` to the stored `result`; the final value
is stored and returned. -/
def Integral.riemann_integration (t : Integral) : ℚ × Integral :=
  let width := (t.upper_bound - t.lower_bound) / (t.num_intervals : ℚ)
  let r := (List.range t.num_intervals).foldl
    (fun (acc : ℚ) (i : ℕ) =>
      let x_coordinate := t.lower_bound + (i : ℚ) * width
      acc + t.function x_coordinate * width)
    t.result
  (r, { t with result := r })

/-- Embedding of `Integral::simpson_integration_one_third`: with
`width = (upper - lower) / n`, the loop `for i in 0..n` adds
`f(x) + 4 * f(x_mid) + f(x_next)` to the stored `result` where
`x = lower + i * width`, `x_next = x + width`,
`x_mid = (x + x_next) / 2`; after the loop the whole stored `result`
is multiplied by `width / 6`, then stored and returned. -/
def Integral.simpson_integration_one_third (t : Integral) : ℚ × Integral :=
  let width := (t.upper_bound - t.lower_bound) / (t.num_intervals : ℚ)
  let acc := (List.range t.num_intervals).foldl
    (fun (acc : ℚ) (i : ℕ) =>
      let x_coordinate := t.lower_bound + (i : ℚ) * width
      let x_next := x_coordinate + width
      let x_mid := (x_coordinate + x_next) / 2
      acc + (t.function x_coordinate + 4 * t.function x_mid
        + t.function x_next))
    t.result
  let r := acc * (width / 6)
  (r, { t with result := r })

/-- Idealised `f64` extended with a NaN element, for the claim about
the constructor guard on a NaN step. -/
inductive F64 where
  | nan : F64
  | fin : ℚ → F64
  deriving DecidableEq

/-- The Rust comparison `increment > 0.0` on `f64`: any comparison
involving NaN is false in IEEE 754. -/
def F64.gtZero : F64 → Bool
  | F64.nan => false
  | F64.fin q => decide (q > 0)

/-- The guard of `Derivative::new` on the idealised `f64` with NaN:
`if increment > 0.0 { increment } else { 1e-6 }`. -/
def effectiveIncrementF (increment : F64) : F64 :=
  if increment.gtZero then increment else F64.fin (1/1000000)

/-- Accumulating `foldl` over `List.range` is the initial value plus
the finite sum of the step contributions. -/
theorem foldl_range_add (g : ℕ → ℚ) (init : ℚ) (n : ℕ) :
    (List.range n).foldl (fun acc i => acc + g i) init
      = init + Finset.sum (Finset.range n) g := by
  induction n generalizing init with
  | zero => simp
  | succ m ih =>
    rw [List.range_succ, List.foldl_append, Finset.sum_range_succ, ih]
    simp [add_assoc]

/-- Value returned by `riemann_integration`: the stored result plus the
sum of the rectangle areas. -/
theorem riemann_fst (t : Integral) :
    (t.riemann_integration).1
      = t.result
        + Finset.sum (Finset.range t.num_intervals)
            (fun i => t.function (t.lower_bound
                + (i : ℚ) * ((t.upper_bound - t.lower_bound) / (t.num_intervals : ℚ)))
              * ((t.upper_bound - t.lower_bound) / (t.num_intervals : ℚ))) := by
  exact foldl_range_add _ _ _

/-- Value returned by `simpson_integration_one_third`: the stored result
plus the sum of the three-point stencils, all multiplied by `width / 6`. -/
theorem simpson_fst (t : Integral) :
    (t.simpson_integration_one_third).1
      = (t.result
          + Finset.sum (Finset.range t.num_intervals)
              (fun i => t.function (t.lower_bound
                  + (i : ℚ) * ((t.upper_bound - t.lower_bound) / (t.num_intervals : ℚ)))
                + 4 * t.function (t.lower_bound
                  + (i : ℚ) * ((t.upper_bound - t.lower_bound) / (t.num_intervals : ℚ))
                  + ((t.upper_bound - t.lower_bound) / (t.num_intervals : ℚ)) / 2)
                + t.function (t.lower_bound
                  + (i : ℚ) * ((t.upper_bound - t.lower_bound) / (t.num_intervals : ℚ))
                  + (t.upper_bound - t.lower_bound) / (t.num_intervals : ℚ))))
        * (((t.upper_bound - t.lower_bound) / (t.num_intervals : ℚ)) / 6) := by
  have h := foldl_range_add
    (fun i => t.function (t.lower_bound
        + (i : ℚ) * ((t.upper_bound - t.lower_bound) / (t.num_intervals : ℚ)))
      + 4 * t.function ((t.lower_bound
          + (i : ℚ) * ((t.upper_bound - t.lower_bound) / (t.num_intervals : ℚ))
          + (t.lower_bound
            + (i : ℚ) * ((t.upper_bound - t.lower_bound) / (t.num_intervals : ℚ))
            + (t.upper_bound - t.lower_bound) / (t.num_intervals : ℚ))) / 2)
      + t.function (t.lower_bound
        + (i : ℚ) * ((t.upper_bound - t.lower_bound) / (t.num_intervals : ℚ))
        + (t.upper_bound - t.lower_bound) / (t.num_intervals : ℚ)))
    t.result t.num_intervals
  show _ * (((t.upper_bound - t.lower_bound) / (t.num_intervals : ℚ)) / 6) = _
  refine (congrArg
    (fun z : ℚ => z * (((t.upper_bound - t.lower_bound) / (t.num_intervals : ℚ)) / 6))
    h).trans ?_
  refine congrArg
    (fun z : ℚ => z * (((t.upper_bound - t.lower_bound) / (t.num_intervals : ℚ)) / 6)) ?_
  refine congrArg (fun z : ℚ => t.result + z) ?_
  refine Finset.sum_congr rfl fun i _ => ?_
  ring_nf

/-- The effective interval count of a freshly constructed `Integral`
is the supplied one when that is positive. -/
theorem Integral.new_num_intervals (f : ℚ → ℚ) (a b : ℚ) (n : ℕ) (h : 1 ≤ n) :
    (Integral.new f a b n).num_intervals = n := by
  unfold Integral.new
  simp only []
  rw [if_pos (by omega : n > 0)]

/-- Constructor stores the supplied function unchanged. -/
theorem Integral.new_function (f : ℚ → ℚ) (a b : ℚ) (n : ℕ) :
    (Integral.new f a b n).function = f := rfl

/-- Constructor stores the supplied lower bound unchanged. -/
theorem Integral.new_lower_bound (f : ℚ → ℚ) (a b : ℚ) (n : ℕ) :
    (Integral.new f a b n).lower_bound = a := rfl

/-- Constructor stores the supplied upper bound unchanged. -/
theorem Integral.new_upper_bound (f : ℚ → ℚ) (a b : ℚ) (n : ℕ) :
    (Integral.new f a b n).upper_bound = b := rfl

/-- Constructor initialises the stored result to zero. -/
theorem Integral.new_result (f : ℚ → ℚ) (a b : ℚ) (n : ℕ) :
    (Integral.new f a b n).result = 0 := rfl

/-- Riemann sum on a freshly constructed task, closed form. -/
theorem riemann_fresh (f : ℚ → ℚ) (a b : ℚ) (n : ℕ) (h : 1 ≤ n) :
    ((Integral.new f a b n).riemann_integration).1
      = Finset.sum (Finset.range n)
          (fun i => f (a + (i : ℚ) * ((b - a) / (n : ℚ))) * ((b - a) / (n : ℚ))) := by
  rw [riemann_fst, Integral.new_num_intervals f a b n h, Integral.new_function,
    Integral.new_lower_bound, Integral.new_upper_bound, Integral.new_result, zero_add]

/-- Simpson rule on a freshly constructed task, closed form. -/
theorem simpson_fresh (f : ℚ → ℚ) (a b : ℚ) (n : ℕ) (h : 1 ≤ n) :
    ((Integral.new f a b n).simpson_integration_one_third).1
      = Finset.sum (Finset.range n)
          (fun i => f (a + (i : ℚ) * ((b - a) / (n : ℚ)))
            + 4 * f (a + (i : ℚ) * ((b - a) / (n : ℚ)) + ((b - a) / (n : ℚ)) / 2)
            + f (a + (i : ℚ) * ((b - a) / (n : ℚ)) + (b - a) / (n : ℚ)))
        * (((b - a) / (n : ℚ)) / 6) := by
  rw [simpson_fst, Integral.new_num_intervals f a b n h, Integral.new_function,
    Integral.new_lower_bound, Integral.new_upper_bound, Integral.new_result, zero_add]

/-- C3: on a freshly constructed task with `n ≥ 1` intervals,
`simpson_integration_one_third` returns `(width/6) * Σ_{i<n}
(f(a_i) + 4*f(m_i) + f(a_i + width))` with `width = (b-a)/n`,
`a_i = a + i*width` and `m_i = a_i + width/2`: the per-sub-interval
stencils are accumulated and the running total is multiplied once by
`width/6` after the loop. -/
theorem simpson_one_third_fresh_formula (f : ℚ → ℚ) (a b : ℚ) (n : ℕ)
    (h : 1 ≤ n) :
    ((Integral.new f a b n).simpson_integration_one_third).1
      = ((b - a) / (n : ℚ)) / 6
        * Finset.sum (Finset.range n)
            (fun i => f (a + (i : ℚ) * ((b - a) / (n : ℚ)))
              + 4 * f (a + (i : ℚ) * ((b - a) / (n : ℚ)) + ((b - a) / (n : ℚ)) / 2)
              + f (a + (i : ℚ) * ((b - a) / (n : ℚ)) + (b - a) / (n : ℚ))) := by
  rw [simpson_fresh f a b n h]
  ring

/-- Witness for C3 at `f(x) = x^2` on `[0,1]` with one interval:
Simpson is exact on quadratics, so the result is `1/3`. -/
theorem simpson_one_third_fresh_formula_witness :
    1 ≤ (1 : ℕ)
    ∧ ((Integral.new (fun x => x * x) 0 1 1).simpson_integration_one_third).1
        = 1 / 3 :=
  ⟨by norm_num,
   (simpson_one_third_fresh_formula (fun x => x * x) 0 1 1 (by norm_num)).trans
     (by norm_num [Finset.sum_range_one])⟩

/-- C4: on a freshly constructed task with `n ≥ 1` intervals,
`riemann_integration` returns `Σ_{i<n} f(a + i*width) * width` with
`width = (b-a)/n`: the left-rectangle rule, evaluating `f` only at the
left edge of each of the `n` equal-width sub-intervals. -/
theorem riemann_fresh_left_rectangle_rule (f : ℚ → ℚ) (a b : ℚ) (n : ℕ)
    (h : 1 ≤ n) :
    ((Integral.new f a b n).riemann_integration).1
      = Finset.sum (Finset.range n)
          (fun i => f (a + (i : ℚ) * ((b - a) / (n : ℚ))) * ((b - a) / (n : ℚ))) :=
  riemann_fresh f a b n h

/-- Witness for C4 at `f(x) = x^2` on `[0,1]` with one interval:
the left edge is `0`, so the left-rectangle result is `0`. -/
theorem riemann_fresh_left_rectangle_rule_witness :
    1 ≤ (1 : ℕ)
    ∧ ((Integral.new (fun x => x * x) 0 1 1).riemann_integration).1 = 0 :=
  ⟨by norm_num,
   (riemann_fresh_left_rectangle_rule (fun x => x * x) 0 1 1 (by norm_num)).trans
     (by norm_num [Finset.sum_range_one])⟩

/-- C5: for every task with (effective) step `h > 0`,
`central_difference` returns `(f(x + h/2) - f(x - h/2)) / h`: `f` is
evaluated at the two points `x ± h/2` and the difference is divided by
the full step `h`. -/
theorem central_difference_formula (d : Derivative) (h : 0 < d.increment) :
    (d.central_difference).1
      = (d.function (d.x_coordinate + d.increment / 2)
          - d.function (d.x_coordinate - d.increment / 2)) / d.increment := rfl

/-- Witness for C5 at `f(x) = x^2`, `x = 2`, `h = 1`:
`(f(2.5) - f(1.5)) / 1 = 4`. -/
theorem central_difference_formula_witness :
    0 < (Derivative.mk (fun x => x * x) 2 1 0).increment
    ∧ ((Derivative.mk (fun x => x * x) 2 1 0).central_difference).1 = 4 :=
  ⟨by norm_num,
   (central_difference_formula (Derivative.mk (fun x => x * x) 2 1 0)
     (by norm_num)).trans (by norm_num)⟩

/-- C6: for every task with (effective) step `h > 0`,
`forward_difference` returns `(f(x + h) - f(x)) / h` and
`backward_difference` returns `(f(x) - f(x - h)) / h`. -/
theorem forward_backward_difference_formulas (d : Derivative)
    (h : 0 < d.increment) :
    (d.forward_difference).1
        = (d.function (d.x_coordinate + d.increment)
            - d.function d.x_coordinate) / d.increment
    ∧ (d.backward_difference).1
        = (d.function d.x_coordinate
            - d.function (d.x_coordinate - d.increment)) / d.increment :=
  ⟨rfl, rfl⟩

/-- Witness for C6 at `f(x) = x^2`, `x = 2`, `h = 1`:
forward gives `(9 - 4)/1 = 5`, backward gives `(4 - 1)/1 = 3`. -/
theorem forward_backward_difference_formulas_witness :
    0 < (Derivative.mk (fun x => x * x) 2 1 0).increment
    ∧ ((Derivative.mk (fun x => x * x) 2 1 0).forward_difference).1 = 5
    ∧ ((Derivative.mk (fun x => x * x) 2 1 0).backward_difference).1 = 3 :=
  ⟨by norm_num,
   ((forward_backward_difference_formulas (Derivative.mk (fun x => x * x) 2 1 0)
       (by norm_num)).1).trans (by norm_num),
   ((forward_backward_difference_formulas (Derivative.mk (fun x => x * x) 2 1 0)
       (by norm_num)).2).trans (by norm_num)⟩

/-- C7: construction never fails.  A differentiation task built with a
non-positive step silently substitutes the default step `1e-6` and keeps
the other fields as supplied; an integration task built with interval
count `0` silently substitutes the default count `1000000`.  Both
constructors are total functions producing a plain struct, never an
error value. -/
theorem construction_silent_fallback :
    (∀ (f : ℚ → ℚ) (x s : ℚ), s ≤ 0 →
      Derivative.new f x s
        = { function := f, x_coordinate := x, increment := 1 / 1000000,
            result := 0 })
    ∧ ∀ (f : ℚ → ℚ) (a b : ℚ),
      Integral.new f a b 0
        = { function := f, lower_bound := a, upper_bound := b,
            num_intervals := 1000000, result := 0 } := by
  constructor
  · intro f x s hs
    unfold Derivative.new
    rw [if_neg (not_lt.mpr hs)]
  · intro f a b
    rfl

/-- Witness for C7: step `-1` is replaced by `1e-6`. -/
theorem construction_silent_fallback_witness :
    (-1 : ℚ) ≤ 0
    ∧ Derivative.new (fun x => x) 2 (-1)
      = { function := fun x => x, x_coordinate := 2, increment := 1 / 1000000,
          result := 0 } :=
  ⟨by norm_num, construction_silent_fallback.1 (fun x => x) 2 (-1) (by norm_num)⟩

/-- C8: for every task and each of the five methods, the value the
method returns is exactly the value left in the task's stored result
field immediately after the call. -/
theorem return_value_matches_stored_result (d : Derivative) (t : Integral) :
    ((d.forward_difference).2.get_result = (d.forward_difference).1)
    ∧ ((d.backward_difference).2.get_result = (d.backward_difference).1)
    ∧ ((d.central_difference).2.get_result = (d.central_difference).1)
    ∧ ((t.riemann_integration).2.result = (t.riemann_integration).1)
    ∧ ((t.simpson_integration_one_third).2.result
        = (t.simpson_integration_one_third).1) :=
  ⟨rfl, rfl, rfl, rfl, rfl⟩

/-- C9: no method modifies its task's configuration: the differencing
methods keep function, point and step unchanged, the quadrature methods
keep function, bounds and interval count unchanged; only the stored
result is written.  Each differencing method overwrites the stored
result with the freshly computed value, which does not depend on the
previously stored result. -/
theorem methods_touch_only_result (d : Derivative) (t : Integral) :
    ((d.forward_difference).2.function = d.function
      ∧ (d.forward_difference).2.x_coordinate = d.x_coordinate
      ∧ (d.forward_difference).2.increment = d.increment)
    ∧ ((d.backward_difference).2.function = d.function
      ∧ (d.backward_difference).2.x_coordinate = d.x_coordinate
      ∧ (d.backward_difference).2.increment = d.increment)
    ∧ ((d.central_difference).2.function = d.function
      ∧ (d.central_difference).2.x_coordinate = d.x_coordinate
      ∧ (d.central_difference).2.increment = d.increment)
    ∧ ((t.riemann_integration).2.function = t.function
      ∧ (t.riemann_integration).2.lower_bound = t.lower_bound
      ∧ (t.riemann_integration).2.upper_bound = t.upper_bound
      ∧ (t.riemann_integration).2.num_intervals = t.num_intervals)
    ∧ ((t.simpson_integration_one_third).2.function = t.function
      ∧ (t.simpson_integration_one_third).2.lower_bound = t.lower_bound
      ∧ (t.simpson_integration_one_third).2.upper_bound = t.upper_bound
      ∧ (t.simpson_integration_one_third).2.num_intervals = t.num_intervals)
    ∧ (∀ r : ℚ,
        (({ d with result := r } : Derivative).forward_difference).1
          = (d.forward_difference).1)
    ∧ (∀ r : ℚ,
        (({ d with result := r } : Derivative).backward_difference).1
          = (d.backward_difference).1)
    ∧ (∀ r : ℚ,
        (({ d with result := r } : Derivative).central_difference).1
          = (d.central_difference).1)
    ∧ ((d.forward_difference).2.result = (d.forward_difference).1)
    ∧ ((d.backward_difference).2.result = (d.backward_difference).1)
    ∧ ((d.central_difference).2.result = (d.central_difference).1) :=
  ⟨⟨rfl, rfl, rfl⟩, ⟨rfl, rfl, rfl⟩, ⟨rfl, rfl, rfl⟩,
   ⟨rfl, rfl, rfl, rfl⟩, ⟨rfl, rfl, rfl, rfl⟩,
   fun _ => rfl, fun _ => rfl, fun _ => rfl, rfl, rfl, rfl⟩

/-- C10: after construction the step of a differentiation task is
strictly positive and the interval count of an integration task is at
least `1`, whatever was supplied; the guard `increment > 0.0` sends a
NaN step to the `1e-6` default as well (every IEEE comparison with NaN
is false), and on any input it produces a strictly positive finite
step; no method changes these fields afterwards. -/
theorem effective_parameters_always_valid :
    (∀ (f : ℚ → ℚ) (x inc : ℚ), 0 < (Derivative.new f x inc).increment)
    ∧ effectiveIncrementF F64.nan = F64.fin (1 / 1000000)
    ∧ (∀ inc : F64, ∃ q : ℚ, effectiveIncrementF inc = F64.fin q ∧ 0 < q)
    ∧ (∀ (f : ℚ → ℚ) (a b : ℚ) (n : ℕ),
        1 ≤ (Integral.new f a b n).num_intervals)
    ∧ (∀ d : Derivative,
        (d.forward_difference).2.increment = d.increment
        ∧ (d.backward_difference).2.increment = d.increment
        ∧ (d.central_difference).2.increment = d.increment)
    ∧ (∀ t : Integral,
        (t.riemann_integration).2.num_intervals = t.num_intervals
        ∧ (t.simpson_integration_one_third).2.num_intervals
            = t.num_intervals) := by
  refine ⟨?_, rfl, ?_, ?_, fun d => ⟨rfl, rfl, rfl⟩, fun t => ⟨rfl, rfl⟩⟩
  · intro f x inc
    unfold Derivative.new
    simp only []
    split
    · assumption
    · norm_num
  · intro inc
    cases inc with
    | nan => exact ⟨1 / 1000000, rfl, by norm_num⟩
    | fin q =>
      by_cases hq : 0 < q
      · refine ⟨q, ?_, hq⟩
        unfold effectiveIncrementF
        rw [if_pos (by simp [F64.gtZero, hq])]
      · refine ⟨1 / 1000000, ?_, by norm_num⟩
        unfold effectiveIncrementF
        rw [if_neg (by simp [F64.gtZero, hq])]
  · intro f a b n
    unfold Integral.new
    simp only []
    split <;> omega

/-- Riemann sum on a task whose stored result has been set to `r`. -/
theorem riemann_fst_update (t : Integral) (r : ℚ) :
    (({ t with result := r } : Integral).riemann_integration).1
      = r + Finset.sum (Finset.range t.num_intervals)
          (fun i => t.function (t.lower_bound
              + (i : ℚ) * ((t.upper_bound - t.lower_bound) / (t.num_intervals : ℚ)))
            * ((t.upper_bound - t.lower_bound) / (t.num_intervals : ℚ))) := by
  rw [riemann_fst]

/-- Simpson rule on a task whose stored result has been set to `r`. -/
theorem simpson_fst_update (t : Integral) (r : ℚ) :
    (({ t with result := r } : Integral).simpson_integration_one_third).1
      = (r + Finset.sum (Finset.range t.num_intervals)
            (fun i => t.function (t.lower_bound
                + (i : ℚ) * ((t.upper_bound - t.lower_bound) / (t.num_intervals : ℚ)))
              + 4 * t.function (t.lower_bound
                + (i : ℚ) * ((t.upper_bound - t.lower_bound) / (t.num_intervals : ℚ))
                + ((t.upper_bound - t.lower_bound) / (t.num_intervals : ℚ)) / 2)
              + t.function (t.lower_bound
                + (i : ℚ) * ((t.upper_bound - t.lower_bound) / (t.num_intervals : ℚ))
                + (t.upper_bound - t.lower_bound) / (t.num_intervals : ℚ))))
        * (((t.upper_bound - t.lower_bound) / (t.num_intervals : ℚ)) / 6) := by
  rw [simpson_fst]

/-- C1 (amended): `riemann_integration` adds its contribution to the
value already stored, so a second call on the same task returns double
the single-call result; `simpson_integration_one_third` adds its
stencil sum to the stored value but then multiplies the whole total by
`width/6`, so a second call returns `(1 + width/6)` times the single
call result, not double. -/
theorem quadrature_accumulation (f : ℚ → ℚ) (a b : ℚ) (n : ℕ) :
    (∀ t : Integral,
        (t.riemann_integration).1
          = t.result + (({ t with result := 0 } : Integral).riemann_integration).1)
    ∧ (∀ t : Integral,
        (t.simpson_integration_one_third).1
          = t.result * (((t.upper_bound - t.lower_bound) / (t.num_intervals : ℚ)) / 6)
            + (({ t with result := 0 } : Integral).simpson_integration_one_third).1)
    ∧ (((Integral.new f a b n).riemann_integration).2.riemann_integration).1
        = 2 * ((Integral.new f a b n).riemann_integration).1
    ∧ (((Integral.new f a b n).simpson_integration_one_third).2.simpson_integration_one_third).1
        = (1 + ((b - a) / (((Integral.new f a b n).num_intervals : ℕ) : ℚ)) / 6)
          * ((Integral.new f a b n).simpson_integration_one_third).1 := by
  refine ⟨?_, ?_, ?_, ?_⟩
  · intro t
    rw [riemann_fst, riemann_fst_update, zero_add]
  · intro t
    rw [simpson_fst, simpson_fst_update]
    ring
  · rw [show ((Integral.new f a b n).riemann_integration).2
          = { Integral.new f a b n with
              result := ((Integral.new f a b n).riemann_integration).1 } from rfl,
      riemann_fst_update, riemann_fst, Integral.new_result]
    ring
  · rw [show ((Integral.new f a b n).simpson_integration_one_third).2
          = { Integral.new f a b n with
              result := ((Integral.new f a b n).simpson_integration_one_third).1 } from rfl,
      simpson_fst_update, simpson_fst, Integral.new_result,
      Integral.new_upper_bound, Integral.new_lower_bound]
    ring

/-- Counterexample to C1 as stated: on `f = 1` over `[0,1]` with one
interval, the first Simpson call returns `1` but the second call on the
same task returns `7/6`, not `2`. -/
theorem quadrature_accumulation_counterexample :
    ¬ ((((Integral.new (fun _ => 1) 0 1 1).simpson_integration_one_third).2.simpson_integration_one_third).1
        = 2 * ((Integral.new (fun _ => 1) 0 1 1).simpson_integration_one_third).1) := by
  norm_num [Integral.new, Integral.simpson_integration_one_third, List.range_succ]

/-- C2 (amended): for a fresh task with `lower_bound > upper_bound` and
`n ≥ 1` intervals, `simpson_integration_one_third` returns exactly the
negation of the result on the fresh task with the bounds swapped; for
`riemann_integration` the negation holds only up to the boundary
correction `width * (f(a) - f(b))` with `width = (b-a)/n`, because the
left-endpoint samples of the two grids differ at the two outer edges. -/
theorem quadrature_sign_reversal (f : ℚ → ℚ) (a b : ℚ) (n : ℕ)
    (h1 : 1 ≤ n) (h2 : b < a) :
    ((Integral.new f a b n).simpson_integration_one_third).1
      = -(((Integral.new f b a n).simpson_integration_one_third).1)
    ∧ ((Integral.new f a b n).riemann_integration).1
      = -(((Integral.new f b a n).riemann_integration).1)
        + ((b - a) / (n : ℚ)) * (f a - f b) := by
  have hn : (n : ℚ) ≠ 0 := Nat.cast_ne_zero.mpr (by omega)
  constructor
  · rw [simpson_fresh f a b n h1, simpson_fresh f b a n h1]
    set w := (b - a) / (n : ℚ) with hwdef
    have hwA : (a - b) / (n : ℚ) = -w := by rw [hwdef]; ring
    have hb' : a + (n : ℚ) * w = b := by rw [hwdef]; field_simp
    rw [hwA, ← hb']
    have hrefl : Finset.sum (Finset.range n)
        (fun i => f (a + (n : ℚ) * w + (i : ℚ) * -w)
          + 4 * f (a + (n : ℚ) * w + (i : ℚ) * -w + -w / 2)
          + f (a + (n : ℚ) * w + (i : ℚ) * -w + -w))
        = Finset.sum (Finset.range n)
        (fun i => f (a + (i : ℚ) * w) + 4 * f (a + (i : ℚ) * w + w / 2)
          + f (a + (i : ℚ) * w + w)) := by
      rw [← Finset.sum_range_reflect]
      refine Finset.sum_congr rfl fun j hj => ?_
      have hjn : j < n := Finset.mem_range.mp hj
      have hc : ((n - 1 - j : ℕ) : ℚ) = (n : ℚ) - (j : ℚ) - 1 := by
        have hx : (n - 1 - j : ℕ) = n - (j + 1) := by omega
        rw [hx, Nat.cast_sub (by omega : j + 1 ≤ n)]
        push_cast
        ring
      rw [hc]
      ring_nf
    rw [hrefl]
    ring
  · rw [riemann_fresh f a b n h1, riemann_fresh f b a n h1]
    set w := (b - a) / (n : ℚ) with hwdef
    have hwA : (a - b) / (n : ℚ) = -w := by rw [hwdef]; ring
    have hb' : a + (n : ℚ) * w = b := by rw [hwdef]; field_simp
    rw [hwA, ← hb']
    have hrefl : Finset.sum (Finset.range n)
        (fun i => f (a + (n : ℚ) * w + (i : ℚ) * -w) * -w)
        = Finset.sum (Finset.range n)
        (fun i => f (a + ((i : ℚ) + 1) * w) * -w) := by
      rw [← Finset.sum_range_reflect]
      refine Finset.sum_congr rfl fun j hj => ?_
      have hjn : j < n := Finset.mem_range.mp hj
      have hc : ((n - 1 - j : ℕ) : ℚ) = (n : ℚ) - (j : ℚ) - 1 := by
        have hx : (n - 1 - j : ℕ) = n - (j + 1) := by omega
        rw [hx, Nat.cast_sub (by omega : j + 1 ≤ n)]
        push_cast
        ring
      rw [hc]
      ring_nf
    rw [hrefl]
    have htel : Finset.sum (Finset.range n)
        (fun i => f (a + ((i : ℚ) + 1) * w) - f (a + (i : ℚ) * w))
        = f (a + (n : ℚ) * w) - f a := by
      refine Eq.trans (Finset.sum_congr rfl fun i _ => ?_)
        ((Finset.sum_range_sub (fun j : ℕ => f (a + (j : ℚ) * w)) n).trans ?_)
      · show f (a + ((i : ℚ) + 1) * w) - f (a + (i : ℚ) * w)
          = f (a + ((i + 1 : ℕ) : ℚ) * w) - f (a + (i : ℚ) * w)
        push_cast
        ring_nf
      · show f (a + ((n : ℕ) : ℚ) * w) - f (a + ((0 : ℕ) : ℚ) * w)
          = f (a + (n : ℚ) * w) - f a
        norm_num
    rw [Finset.sum_sub_distrib] at htel
    rw [← Finset.sum_mul, ← Finset.sum_mul]
    linear_combination (-w) * htel

/-- Counterexample to C2 as stated: for `f(x) = x^2` on swapped bounds
`[1,0]` with one interval, `riemann_integration` returns `-1` (it
samples `f` at `1`), while the negation of the ascending result is `-0`
(it samples `f` at `0`). -/
theorem quadrature_sign_reversal_counterexample :
    ¬ (((Integral.new (fun x => x * x) 1 0 1).riemann_integration).1
        = -(((Integral.new (fun x => x * x) 0 1 1).riemann_integration).1)) := by
  norm_num [Integral.new, Integral.riemann_integration, List.range_succ]

/-- Witness for C2 (amended) at `f(x) = x^2`, bounds `1 > 0`, one
interval: Simpson gives `-1/3 = -(1/3)`, Riemann gives
`-1 = -0 + (-1) * (1 - 0)`. -/
theorem quadrature_sign_reversal_witness :
    1 ≤ (1 : ℕ) ∧ (0 : ℚ) < 1
    ∧ ((Integral.new (fun x => x * x) 1 0 1).simpson_integration_one_third).1
        = -(1 / 3)
    ∧ ((Integral.new (fun x => x * x) 1 0 1).riemann_integration).1 = -1 :=
  ⟨by norm_num, by norm_num,
   ((quadrature_sign_reversal (fun x => x * x) 1 0 1 (by norm_num) (by norm_num)).1).trans
     (by norm_num [Integral.new, Integral.simpson_integration_one_third, List.range_succ]),
   ((quadrature_sign_reversal (fun x => x * x) 1 0 1 (by norm_num) (by norm_num)).2).trans
     (by norm_num [Integral.new, Integral.riemann_integration, List.range_succ])⟩

end RustMath
